import Mathlib

/-!
Shallow embedding of the YouTube summarizer repository (three Streamlit
variants: `summarizer.py`, `summarizero2.py`, `summary.py`).

The repository's own code is glue around two external services.  The embedding
models:

* `extract_video_id` together with the CPython `urllib.parse` machinery it
  calls (`urlparse`, its `hostname` accessor, and `parse_qs`), at the fidelity
  the repository exercises;
* the two `fetch_transcript` wrappers around the external transcript service
  (the service itself is an oracle argument);
* the Streamlit session state (`summary`, `qa_active`, `qa_history`) and the
  three button handlers as state-transition functions, with the results of the
  external transcript and LLM calls passed in as `Except` oracles.

Fidelity notes on the `urllib.parse` model (CPython 3.10+ semantics):
`urlsplit` first strips leading C0-control/space characters, then removes any
tab, CR and LF; scheme recognition requires a leading ASCII letter and scheme
characters up to the first colon; a netloc is read after a literal `//` up to
the first of `/?#`; the fragment is split off at the first `#`, then the query
at the first `?`; `urlparse` additionally drops `;`-parameters from the last
path segment for the common schemes.  `parse_qs` splits fields on `&`, skips
fields without `=` and fields with an empty value (`keep_blank_values=False`),
and percent-decodes names and values (`unquote_plus`).  Percent-escapes are
decoded one byte per character here, which agrees with CPython on ASCII data;
multi-byte UTF-8 escape sequences are out of scope for every claim.
-/

/-- Python `str.strip()` whitespace test restricted to ASCII whitespace,
matching what the application's inputs can contain. -/
def pyIsSpace (c : Char) : Bool :=
  c == ' ' || c == '\t' || c == '\n' || c == '\r' || c == '\x0b' || c == '\x0c'

/-- Truth value of Python `not s.strip()`: the string is empty or
whitespace-only. -/
def isBlank (s : String) : Bool := s.toList.all pyIsSpace

/-- WHATWG C0-control-or-space class, stripped from the left of a URL by
CPython `urlsplit`. -/
def isC0orSpace (c : Char) : Bool := c.val ≤ 32

/-- Tab, CR and LF are removed anywhere in the URL by CPython `urlsplit`. -/
def isUnsafeByte (c : Char) : Bool := c == '\t' || c == '\r' || c == '\n'

/-- Sanitation performed by CPython `urlsplit` before parsing. -/
def sanitizeUrl (l : List Char) : List Char :=
  (l.dropWhile isC0orSpace).filter (fun c => !isUnsafeByte c)

/-- Characters allowed in a URL scheme after the leading letter. -/
def isSchemeChar (c : Char) : Bool :=
  c.isAlpha || c.isDigit || c == '+' || c == '-' || c == '.'

/-- Walk to the first colon; succeed only if everything before it is a scheme
character, mirroring CPython's scheme recognition. -/
def splitSchemeAux : List Char → List Char → Option (List Char × List Char)
  | _, [] => none
  | acc, c :: rest =>
    if c == ':' then some (acc.reverse, rest)
    else if isSchemeChar c then splitSchemeAux (c :: acc) rest
    else none

/-- Split `scheme:rest`; the scheme must start with an ASCII letter.  CPython
lowercases the recognized scheme. -/
def splitScheme (l : List Char) : List Char × List Char :=
  match l with
  | [] => ([], [])
  | c :: _ =>
    if c.isAlpha then
      match splitSchemeAux [] l with
      | some (sch, rest) => (sch.map Char.toLower, rest)
      | none => ([], l)
    else ([], l)

/-- Delimiters that terminate the netloc in CPython `_splitnetloc`. -/
def isNetlocEnd (c : Char) : Bool := c == '/' || c == '?' || c == '#'

/-- After `//`, the netloc extends to the first of `/?#`. -/
def splitNetloc (l : List Char) : List Char × List Char :=
  match l with
  | '/' :: '/' :: rest =>
    (rest.takeWhile (fun c => !isNetlocEnd c), rest.dropWhile (fun c => !isNetlocEnd c))
  | _ => ([], l)

/-- Python `s.split(sep, 1)`: the part before the first `sep`, and the part
after it (empty when `sep` does not occur). -/
def splitFirst (sep : Char) (l : List Char) : List Char × List Char :=
  (l.takeWhile (fun c => c != sep), (l.dropWhile (fun c => c != sep)).drop 1)

/-- Components of a parsed URL, as in CPython's split result. -/
structure UrlParts where
  scheme : List Char
  netloc : List Char
  path : List Char
  query : List Char
  fragment : List Char
deriving DecidableEq

/-- CPython `urlsplit`: sanitize, read the scheme, the `//`-netloc, then split
off the fragment at the first `#` and the query at the first `?`. -/
def urlsplitL (l : List Char) : UrlParts :=
  ⟨(splitScheme (sanitizeUrl l)).1,
   (splitNetloc (splitScheme (sanitizeUrl l)).2).1,
   (splitFirst '?' (splitFirst '#' (splitNetloc (splitScheme (sanitizeUrl l)).2).2).1).1,
   (splitFirst '?' (splitFirst '#' (splitNetloc (splitScheme (sanitizeUrl l)).2).2).1).2,
   (splitFirst '#' (splitNetloc (splitScheme (sanitizeUrl l)).2).2).2⟩

/-- Membership test for a character, written out so that its unfolding lemmas
stay stable. -/
def hasChar (x : Char) (l : List Char) : Bool := l.any (fun c => c == x)

/-- Userinfo removal: CPython keeps the part of the netloc after the last `@`. -/
def afterLastAt (l : List Char) : List Char :=
  (l.reverse.takeWhile (fun c => c != '@')).reverse

/-- CPython's `hostname` accessor on a netloc: strip userinfo, take the
bracketed host or everything before the port colon, and lowercase.  An absent
host is rendered as the empty list (Python returns `None`, which compares
unequal to every hostname string, as the empty list does here). -/
def hostnameL (netloc : List Char) : List Char :=
  let hostinfo := afterLastAt netloc
  let host :=
    if hasChar '[' hostinfo then
      ((hostinfo.dropWhile (fun c => c != '[')).drop 1).takeWhile (fun c => c != ']')
    else hostinfo.takeWhile (fun c => c != ':')
  host.map Char.toLower

/-- CPython `_splitparams`: drop a `;`-suffix of the last path segment. -/
def dropParams (path : List Char) : List Char :=
  if hasChar '/' path then
    let revSeg := path.reverse.takeWhile (fun c => c != '/')
    let pre := path.take (path.length - revSeg.length)
    pre ++ revSeg.reverse.takeWhile (fun c => c != ';')
  else path.takeWhile (fun c => c != ';')

/-- Schemes for which CPython `urlparse` separates `;`-parameters. -/
def usesParams : List (List Char) :=
  ["", "ftp", "hdl", "prospero", "http", "imap", "https", "shttp", "rtsp",
   "rtspu", "sip", "sips", "mms", "sftp", "tel"].map String.toList

/-- CPython `urlparse`: `urlsplit` plus parameter separation on the path. -/
def urlparseL (l : List Char) : UrlParts :=
  if usesParams.any (fun s => s == (urlsplitL l).scheme) && hasChar ';' (urlsplitL l).path then
    ⟨(urlsplitL l).scheme, (urlsplitL l).netloc, dropParams (urlsplitL l).path,
     (urlsplitL l).query, (urlsplitL l).fragment⟩
  else urlsplitL l

/-- Numeric value of a hexadecimal digit, if any. -/
def hexDigit? (c : Char) : Option Nat :=
  if '0' ≤ c ∧ c ≤ '9' then some (c.toNat - '0'.toNat)
  else if 'a' ≤ c ∧ c ≤ 'f' then some (c.toNat - 'a'.toNat + 10)
  else if 'A' ≤ c ∧ c ≤ 'F' then some (c.toNat - 'A'.toNat + 10)
  else none

/-- CPython `unquote_plus`: `+` becomes a space and `%XX` hex escapes are
decoded; malformed escapes are kept verbatim.  Each decoded byte becomes one
character, which agrees with CPython for ASCII escapes. -/
def unquoteL : List Char → List Char
  | [] => []
  | '+' :: rest => ' ' :: unquoteL rest
  | '%' :: a :: b :: rest =>
    match hexDigit? a, hexDigit? b with
    | some x, some y => Char.ofNat (16 * x + y) :: unquoteL rest
    | _, _ => '%' :: unquoteL (a :: b :: rest)
  | c :: rest => c :: unquoteL rest

/-- Python `str.split(sep)` on characters (keeps empty fields). -/
def splitOnChar (sep : Char) : List Char → List (List Char)
  | [] => [[]]
  | c :: rest =>
    match splitOnChar sep rest with
    | [] => [[c]]
    | g :: gs => if c == sep then [] :: g :: gs else (c :: g) :: gs

/-- CPython `parse_qsl` with its defaults: fields are split on `&`; empty
fields, fields without `=` and fields with an empty value are skipped; names
and values are percent-decoded. -/
def parse_qsl (qs : List Char) : List (List Char × List Char) :=
  (splitOnChar '&' qs).filterMap (fun field =>
    if field.isEmpty then none
    else
      match field.dropWhile (fun c => c != '=') with
      | [] => none
      | _ :: value =>
        if value.isEmpty then none
        else some (unquoteL (field.takeWhile (fun c => c != '=')), unquoteL value))

/-- Python `parse_qs(qs).get('v', [None])[0]`: the value of the first `v`
field, if any. -/
def queryParamV (qs : List Char) : Option (List Char) :=
  Option.map Prod.snd ((parse_qsl qs).find? (fun p => p.1 == "v".toList))

/-- `extract_video_id` from `summarizer.py` (lines 17-23): `youtu.be` hosts
yield the path with its first character dropped, `youtube.com` hosts yield the
first `v` query parameter, all other hosts yield `None`. -/
def extract_video_id (url : String) : Option String :=
  if hostnameL (urlparseL url.toList).netloc = "youtu.be".toList then
    some (((urlparseL url.toList).path.drop 1).asString)
  else if hostnameL (urlparseL url.toList).netloc = "www.youtube.com".toList ∨
      hostnameL (urlparseL url.toList).netloc = "youtube.com".toList then
    Option.map List.asString (queryParamV (urlparseL url.toList).query)
  else none

/-- `extract_video_id` from `summarizero2.py` (lines 17-23); its body is
character-for-character the one in `summarizer.py`. -/
def extract_video_id_o2 (url : String) : Option String :=
  if hostnameL (urlparseL url.toList).netloc = "youtu.be".toList then
    some (((urlparseL url.toList).path.drop 1).asString)
  else if hostnameL (urlparseL url.toList).netloc = "www.youtube.com".toList ∨
      hostnameL (urlparseL url.toList).netloc = "youtube.com".toList then
    Option.map List.asString (queryParamV (urlparseL url.toList).query)
  else none

/-- `extract_video_id` from `summary.py` (lines 23-33); again the same body. -/
def extract_video_id_sum (url : String) : Option String :=
  if hostnameL (urlparseL url.toList).netloc = "youtu.be".toList then
    some (((urlparseL url.toList).path.drop 1).asString)
  else if hostnameL (urlparseL url.toList).netloc = "www.youtube.com".toList ∨
      hostnameL (urlparseL url.toList).netloc = "youtube.com".toList then
    Option.map List.asString (queryParamV (urlparseL url.toList).query)
  else none

/-- Host of a URL as the spec speaks of it, through the embedded parser. -/
def urlHost (url : String) : String :=
  (hostnameL (urlparseL url.toList).netloc).asString

/-- Path of a URL with its leading character (the separator) removed. -/
def urlPathStripped (url : String) : String :=
  ((urlparseL url.toList).path.drop 1).asString

/-- First value of the query parameter `v` of a URL, if present. -/
def urlQueryV (url : String) : Option String :=
  Option.map List.asString (queryParamV (urlparseL url.toList).query)

/-- One timed caption snippet returned by the external transcript service; the
code reads only its `text` field. -/
structure CaptionFragment where
  text : String
deriving DecidableEq

/-- Optional HTTP/HTTPS proxy endpoints handed to the transcript service by
`summarizero2.py`. -/
structure ProxyConfig where
  http : Option String
  https : Option String
deriving DecidableEq

/-- `fetch_transcript` from `summarizer.py` (lines 25-27) and, identically,
`summary.py` (lines 35-41): call the external service and join the fragment
texts with single spaces.  There is no `try` here: a service error propagates
to the caller unchanged. -/
def fetch_transcript (svc : String → Except String (List CaptionFragment))
    (video_id : String) : Except String String :=
  match svc video_id with
  | Except.ok frags => Except.ok (String.intercalate " " (frags.map CaptionFragment.text))
  | Except.error e => Except.error e

/-- Literal hint text of the `RuntimeError` raised by `summarizero2.py`'s
`fetch_transcript` (lines 33-40); the underlying error text is appended. -/
def transcriptHintText : String :=
  "Could not retrieve transcript. This may be due to:\n- The video has no captions or captions are disabled.\n- Your IP is being blocked by YouTube (common on cloud hosting).\n- You are using a cloud provider IP (e.g., Streamlit Cloud, AWS, etc.).\n\nTechnical error: "

/-- Message carried by the classified transcript error. -/
def transcriptErrorMessage (e : String) : String := transcriptHintText ++ e

/-- `fetch_transcript` from `summarizero2.py` (lines 25-40): proxies are read
from the environment, the service is called, and any failure is re-raised as a
`RuntimeError` carrying the classification hint plus the original error. -/
def fetch_transcript_o2 (env : String → Option String)
    (svc : String → ProxyConfig → Except String (List CaptionFragment))
    (video_id : String) : Except String String :=
  match svc video_id ⟨env "HTTP_PROXY", env "HTTPS_PROXY"⟩ with
  | Except.ok frags => Except.ok (String.intercalate " " (frags.map CaptionFragment.text))
  | Except.error e => Except.error (transcriptErrorMessage e)

/-- Streamlit session state of `summarizer.py` (lines 78-83): the current
summary, whether Q&A is active, and the ordered question/answer history. -/
structure SessionState where
  summary : String
  qa_active : Bool
  qa_history : List (String × String)
deriving DecidableEq

/-- Initial session state (empty summary, Q&A inactive, empty history). -/
def initialState : SessionState := ⟨"", false, []⟩

/-- Outcome reported by the Generate Summary handler. -/
inductive GenReport
  | blankUrl
  | invalidUrl
  | errorMsg (e : String)
  | ok
deriving DecidableEq

/-- Generate Summary button handler of `summarizer.py` (lines 86-100).  The
results of the two external calls are passed in as oracles: `fetchRes` is what
`fetch_transcript` would produce, `llmRes` what `generate_summary` would
return.  On success the summary is overwritten and `qa_active` set; every
failure leaves the state untouched (the `except` block only displays the
error). -/
def generateSummaryStep (url : String) (fetchRes : Except String String)
    (llmRes : Except String String) (s : SessionState) : SessionState × GenReport :=
  if isBlank url then (s, GenReport.blankUrl)
  else
    match extract_video_id url with
    | none => (s, GenReport.invalidUrl)
    | some vid =>
      if vid = "" then (s, GenReport.invalidUrl)
      else
        match fetchRes with
        | Except.error e => (s, GenReport.errorMsg e)
        | Except.ok _transcript =>
          match llmRes with
          | Except.error e => (s, GenReport.errorMsg e)
          | Except.ok text => (⟨text, true, s.qa_history⟩, GenReport.ok)

/-- Outcome reported by the Generate Summary handler of `summarizero2.py`,
which distinguishes the classified `RuntimeError` from other exceptions. -/
inductive GenReportO2
  | blankUrl
  | invalidUrl
  | runtimeError (e : String)
  | unexpectedError (e : String)
  | ok
deriving DecidableEq

/-- Generate Summary button handler of `summarizero2.py` (lines 97-113); the
state effect coincides with `summarizer.py`'s handler, only the error display
differs (`fetchRes` errors arrive as the classified `RuntimeError`). -/
def generateSummaryStepO2 (url : String) (fetchRes : Except String String)
    (llmRes : Except String String) (s : SessionState) : SessionState × GenReportO2 :=
  if isBlank url then (s, GenReportO2.blankUrl)
  else
    match extract_video_id_o2 url with
    | none => (s, GenReportO2.invalidUrl)
    | some vid =>
      if vid = "" then (s, GenReportO2.invalidUrl)
      else
        match fetchRes with
        | Except.error e => (s, GenReportO2.runtimeError e)
        | Except.ok _transcript =>
          match llmRes with
          | Except.error e => (s, GenReportO2.unexpectedError e)
          | Except.ok text => (⟨text, true, s.qa_history⟩, GenReportO2.ok)

/-- Outcome of submitting a question.  `inactive` covers the Q&A interface not
being rendered at all (gate `qa_active and summary` false), `blankIgnored` the
silent skip of a blank question; only `answered` and `llmError` correspond to
an actual LLM call. -/
inductive QAReport
  | inactive
  | blankIgnored
  | llmError (e : String)
  | answered
deriving DecidableEq

/-- Whether a question submission reached the external LLM service. -/
def qaUsedLLM : QAReport → Bool
  | QAReport.answered => true
  | QAReport.llmError _ => true
  | QAReport.inactive => false
  | QAReport.blankIgnored => false

/-- Q&A interface of `summarizer.py` (lines 108-118): rendered only while
`qa_active` and the summary is non-empty; a blank question is ignored; on an
LLM answer the pair is appended to the history.  An LLM exception is not
caught by this handler, so the session state survives unchanged. -/
def askQuestionStep (q : String) (llmRes : Except String String)
    (s : SessionState) : SessionState × QAReport :=
  if s.qa_active = true ∧ s.summary ≠ "" then
    if isBlank q then (s, QAReport.blankIgnored)
    else
      match llmRes with
      | Except.error e => (s, QAReport.llmError e)
      | Except.ok ans => (⟨s.summary, s.qa_active, s.qa_history ++ [(q, ans)]⟩, QAReport.answered)
  else (s, QAReport.inactive)

/-- Done button handler of `summarizer.py` (lines 127-129): deactivate Q&A and
clear the history, leaving the summary.  The button exists only inside the
`qa_active and summary` block, so outside that gate nothing happens. -/
def endSessionStep (s : SessionState) : SessionState :=
  if s.qa_active = true ∧ s.summary ≠ "" then ⟨s.summary, false, []⟩ else s

/-- One user action together with the oracle results of the external calls it
would trigger. -/
inductive UserAction
  | generate (url : String) (fetchRes llmRes : Except String String)
  | ask (q : String) (llmRes : Except String String)
  | done

/-- State reached by one user action (reports discarded). -/
def applyAction (a : UserAction) (s : SessionState) : SessionState :=
  match a with
  | UserAction.generate url f l => (generateSummaryStep url f l s).1
  | UserAction.ask q l => (askQuestionStep q l s).1
  | UserAction.done => endSessionStep s

/-- State reached from `s` by a sequence of user actions. -/
def runActions (as : List UserAction) (s : SessionState) : SessionState :=
  as.foldl (fun st a => applyAction a st) s

/-! Supporting lemmas about the list-level parsing primitives. -/

lemma takeWhile_all {p : Char → Bool} {l : List Char} (h : ∀ c ∈ l, p c = true) :
    l.takeWhile p = l := by
  induction l with
  | nil => rfl
  | cons c t ih =>
    rw [List.takeWhile_cons, h c (List.mem_cons_self c t),
      ih (fun x hx => h x (List.mem_cons_of_mem c hx))]
    exact if_pos rfl

lemma dropWhile_all {p : Char → Bool} {l : List Char} (h : ∀ c ∈ l, p c = true) :
    l.dropWhile p = [] := by
  induction l with
  | nil => rfl
  | cons c t ih =>
    rw [List.dropWhile_cons, h c (List.mem_cons_self c t), if_pos rfl]
    exact ih (fun x hx => h x (List.mem_cons_of_mem c hx))

lemma filter_all {p : Char → Bool} {l : List Char} (h : ∀ c ∈ l, p c = true) :
    l.filter p = l := by
  induction l with
  | nil => rfl
  | cons c t ih =>
    rw [List.filter_cons, if_pos (h c (List.mem_cons_self c t)),
      ih (fun x hx => h x (List.mem_cons_of_mem c hx))]

lemma splitFirst_all_ne (sep : Char) {l : List Char}
    (h : ∀ c ∈ l, (c != sep) = true) : splitFirst sep l = (l, []) := by
  unfold splitFirst
  rw [takeWhile_all h, dropWhile_all h]
  rfl

lemma hasChar_false {x : Char} {l : List Char}
    (h : ∀ c ∈ l, (c == x) = false) : hasChar x l = false := by
  unfold hasChar
  induction l with
  | nil => rfl
  | cons c t ih =>
    rw [List.any_cons, h c (List.mem_cons_self c t),
      ih (fun y hy => h y (List.mem_cons_of_mem c hy))]
    rfl

/-- Characters free of URL metacharacters: such characters pass through the
parser untouched.  Every real YouTube identifier (alphanumerics, `-`, `_`)
satisfies this. -/
def plainIdChar (c : Char) : Bool :=
  !(c == '/' || c == '?' || c == '#' || c == ';' || c == '\t' || c == '\r' || c == '\n')

lemma plainIdChar_facts {c : Char} (h : plainIdChar c = true) :
    (c == '/') = false ∧ (c == '?') = false ∧ (c == '#') = false ∧ (c == ';') = false ∧
    (c == '\t') = false ∧ (c == '\r') = false ∧ (c == '\n') = false := by
  unfold plainIdChar at h
  simp only [Bool.not_eq_true', Bool.or_eq_false_iff] at h
  exact ⟨h.1.1.1.1.1.1, h.1.1.1.1.1.2, h.1.1.1.1.2, h.1.1.1.2, h.1.1.2, h.1.2, h.2⟩

lemma plainIdChar_not_unsafe {c : Char} (h : plainIdChar c = true) :
    (!isUnsafeByte c) = true := by
  obtain ⟨-, -, -, -, h5, h6, h7⟩ := plainIdChar_facts h
  unfold isUnsafeByte
  rw [h5, h6, h7]
  rfl

lemma bne_true_of_beq_false {c x : Char} (h : (c == x) = false) : (c != x) = true := by
  simp only [bne, h, Bool.not_false]

/-- Parsing a short-form URL `https://youtu.be/{id}` whose identifier avoids
URL metacharacters yields exactly the expected components. -/
lemma urlsplit_youtu (idl : List Char) (h : ∀ c ∈ idl, plainIdChar c = true) :
    urlsplitL ("https://youtu.be/".toList ++ idl) =
      ⟨"https".toList, "youtu.be".toList, '/' :: idl, [], []⟩ := by
  have hsan : sanitizeUrl ("https://youtu.be/".toList ++ idl)
      = "https://youtu.be/".toList ++ idl := by
    unfold sanitizeUrl
    have h1 : ("https://youtu.be/".toList ++ idl).dropWhile isC0orSpace
        = "https://youtu.be/".toList ++ idl := rfl
    have h2 : ∀ c ∈ "https://youtu.be/".toList, (!isUnsafeByte c) = true := by decide
    rw [h1]
    apply filter_all
    intro c hc
    rcases List.mem_append.mp hc with hc | hc
    · exact h2 c hc
    · exact plainIdChar_not_unsafe (h c hc)
  have hsch : splitScheme ("https://youtu.be/".toList ++ idl)
      = ("https".toList, "//youtu.be/".toList ++ idl) := rfl
  have hnet : splitNetloc ("//youtu.be/".toList ++ idl)
      = ("youtu.be".toList, '/' :: idl) := rfl
  have hfrag : splitFirst '#' ('/' :: idl) = ('/' :: idl, []) := by
    apply splitFirst_all_ne
    intro c hc
    rcases List.mem_cons.mp hc with rfl | hc
    · decide
    · exact bne_true_of_beq_false (plainIdChar_facts (h c hc)).2.2.1
  have hquer : splitFirst '?' ('/' :: idl) = ('/' :: idl, []) := by
    apply splitFirst_all_ne
    intro c hc
    rcases List.mem_cons.mp hc with rfl | hc
    · decide
    · exact bne_true_of_beq_false (plainIdChar_facts (h c hc)).2.1
  unfold urlsplitL
  rw [hsan, hsch]
  dsimp only
  rw [hnet]
  dsimp only
  rw [hfrag]
  dsimp only
  rw [hquer]

/-- `urlparse` adds no parameter splitting on such URLs. -/
lemma urlparse_youtu (idl : List Char) (h : ∀ c ∈ idl, plainIdChar c = true) :
    urlparseL ("https://youtu.be/".toList ++ idl) =
      ⟨"https".toList, "youtu.be".toList, '/' :: idl, [], []⟩ := by
  have hsemi : hasChar ';' ('/' :: idl) = false := by
    apply hasChar_false
    intro c hc
    rcases List.mem_cons.mp hc with rfl | hc
    · decide
    · exact (plainIdChar_facts (h c hc)).2.2.2.1
  unfold urlparseL
  rw [urlsplit_youtu idl h]
  dsimp only
  rw [hsemi, Bool.and_false, if_neg Bool.false_ne_true]

lemma asString_inj {l m : List Char} (h : l.asString = m.asString) : l = m :=
  congrArg String.data h

/-- C6: `extract_video_id` is a pure function on URL strings such that a
parsed host equal to `youtu.be` yields the path with its leading separator
dropped (so `https://youtu.be/{id}` yields `{id}` exactly, and an empty path
yields the empty identifier), a host of `youtube.com` or `www.youtube.com`
yields the first value of the query parameter `v` (or none when `parse_qs`
exposes no `v`), and any other host yields none. -/
theorem C6_extract_video_id_contract :
    (∀ vid : String, vid.toList.all plainIdChar = true →
        extract_video_id ("https://youtu.be/" ++ vid) = some vid)
  ∧ extract_video_id "https://youtu.be" = some ""
  ∧ (∀ url : String, urlHost url = "youtu.be" →
        extract_video_id url = some (urlPathStripped url))
  ∧ (∀ url : String, urlHost url = "www.youtube.com" ∨ urlHost url = "youtube.com" →
        extract_video_id url = urlQueryV url)
  ∧ (∀ url : String, urlHost url ≠ "youtu.be" → urlHost url ≠ "www.youtube.com" →
        urlHost url ≠ "youtube.com" → extract_video_id url = none) := by
  refine ⟨?_, ?_, ?_, ?_, ?_⟩
  · intro vid hvid
    have h : ∀ c ∈ vid.toList, plainIdChar c = true := fun c hc =>
      List.all_eq_true.mp hvid c hc
    have hl : ("https://youtu.be/" ++ vid).toList
        = "https://youtu.be/".toList ++ vid.toList := rfl
    unfold extract_video_id
    rw [hl, urlparse_youtu vid.toList h]
    rfl
  · rfl
  · intro url hhost
    have hh : hostnameL (urlparseL url.toList).netloc = "youtu.be".toList :=
      asString_inj hhost
    unfold extract_video_id
    rw [if_pos hh]
    rfl
  · intro url hhost
    unfold extract_video_id
    rcases hhost with hhost | hhost
    · have hh : hostnameL (urlparseL url.toList).netloc = "www.youtube.com".toList :=
        asString_inj hhost
      rw [if_neg (by rw [hh]; decide), if_pos (Or.inl hh)]
      rfl
    · have hh : hostnameL (urlparseL url.toList).netloc = "youtube.com".toList :=
        asString_inj hhost
      rw [if_neg (by rw [hh]; decide), if_pos (Or.inr hh)]
      rfl
  · intro url h1 h2 h3
    have k1 : hostnameL (urlparseL url.toList).netloc ≠ "youtu.be".toList := by
      intro hl
      apply h1
      unfold urlHost
      rw [hl]
      rfl
    have k2 : hostnameL (urlparseL url.toList).netloc ≠ "www.youtube.com".toList := by
      intro hl
      apply h2
      unfold urlHost
      rw [hl]
      rfl
    have k3 : hostnameL (urlparseL url.toList).netloc ≠ "youtube.com".toList := by
      intro hl
      apply h3
      unfold urlHost
      rw [hl]
      rfl
    unfold extract_video_id
    rw [if_neg k1, if_neg (fun hor => hor.elim k2 k3)]

/-- C6 witness: the contract evaluated at concrete URLs of each kind. -/
theorem C6_extract_video_id_contract_witness :
    "dQw4w9WgXcQ".toList.all plainIdChar = true
  ∧ extract_video_id ("https://youtu.be/" ++ "dQw4w9WgXcQ") = some "dQw4w9WgXcQ"
  ∧ extract_video_id "https://www.youtube.com/watch?v=abc123&t=10" = some "abc123"
  ∧ extract_video_id "https://vimeo.com/123" = none :=
  ⟨by decide,
   C6_extract_video_id_contract.1 "dQw4w9WgXcQ" (by decide),
   (C6_extract_video_id_contract.2.2.2.1 "https://www.youtube.com/watch?v=abc123&t=10"
      (Or.inl (by decide))).trans (by decide),
   C6_extract_video_id_contract.2.2.2.2 "https://vimeo.com/123"
      (by decide) (by decide) (by decide)⟩

/-! Claims about the session state machine and the transcript wrappers. -/

lemma genStep_success (s : SessionState) (url vid transcript text : String)
    (h1 : isBlank url = false) (h2 : extract_video_id url = some vid) (h3 : vid ≠ "") :
    generateSummaryStep url (Except.ok transcript) (Except.ok text) s =
      (⟨text, true, s.qa_history⟩, GenReport.ok) := by
  unfold generateSummaryStep
  rw [if_neg (by rw [h1]; exact Bool.false_ne_true), h2]
  dsimp only
  rw [if_neg h3]

/-- C1: for every session state and every successful GenerateSummary action
(non-blank URL, identifier extracted, transcript fetched, LLM completion
returned), the resulting state has the summary equal to the newly generated
text, `qa_active` set, and the history exactly equal to the pre-call
history. -/
theorem C1_generate_summary_success (s : SessionState) (url vid transcript text : String)
    (h1 : isBlank url = false) (h2 : extract_video_id url = some vid) (h3 : vid ≠ "") :
    generateSummaryStep url (Except.ok transcript) (Except.ok text) s =
      (⟨text, true, s.qa_history⟩, GenReport.ok) :=
  genStep_success s url vid transcript text h1 h2 h3

/-- C1 witness: a successful generation over a state that already holds a
summary and history overwrites the summary and keeps the history. -/
theorem C1_generate_summary_success_witness :
    isBlank "https://youtu.be/abc123" = false ∧
    extract_video_id "https://youtu.be/abc123" = some "abc123" ∧
    generateSummaryStep "https://youtu.be/abc123" (Except.ok "hello world")
        (Except.ok "Summary text") ⟨"old summary", false, [("q0", "a0")]⟩ =
      (⟨"Summary text", true, [("q0", "a0")]⟩, GenReport.ok) :=
  ⟨rfl, by decide,
   C1_generate_summary_success ⟨"old summary", false, [("q0", "a0")]⟩
     "https://youtu.be/abc123" "abc123" "hello world" "Summary text" rfl
     (by decide) (by decide)⟩

lemma genStep_frame (url : String) (f l : Except String String) (s : SessionState) :
    (generateSummaryStep url f l s).1 = s ∨
      (generateSummaryStep url f l s).2 = GenReport.ok := by
  unfold generateSummaryStep
  split
  · exact Or.inl rfl
  · split
    · exact Or.inl rfl
    · split
      · exact Or.inl rfl
      · cases f with
        | error e => exact Or.inl rfl
        | ok t =>
          cases l with
          | error e => exact Or.inl rfl
          | ok text => exact Or.inr rfl

lemma genStepO2_frame (url : String) (f l : Except String String) (s : SessionState) :
    (generateSummaryStepO2 url f l s).1 = s ∨
      (generateSummaryStepO2 url f l s).2 = GenReportO2.ok := by
  unfold generateSummaryStepO2
  split
  · exact Or.inl rfl
  · split
    · exact Or.inl rfl
    · split
      · exact Or.inl rfl
      · cases f with
        | error e => exact Or.inl rfl
        | ok t =>
          cases l with
          | error e => exact Or.inl rfl
          | ok text => exact Or.inr rfl

/-- C2: whenever GenerateSummary fails at any step (blank URL, no identifier,
transcript fetch error, LLM error — i.e. whenever the reported outcome is not
`ok`), the session state is exactly the pre-call state, in both the
`summarizer.py` and the `summarizero2.py` handler. -/
theorem C2_failure_preserves_state (url url2 : String) (f l f2 l2 : Except String String)
    (s s2 : SessionState) :
    ((generateSummaryStep url f l s).2 ≠ GenReport.ok →
        (generateSummaryStep url f l s).1 = s) ∧
    ((generateSummaryStepO2 url2 f2 l2 s2).2 ≠ GenReportO2.ok →
        (generateSummaryStepO2 url2 f2 l2 s2).1 = s2) := by
  constructor
  · intro h
    rcases genStep_frame url f l s with hf | hf
    · exact hf
    · exact absurd hf h
  · intro h
    rcases genStepO2_frame url2 f2 l2 s2 with hf | hf
    · exact hf
    · exact absurd hf h

/-- C2 witness: a transcript failure and a blank URL each leave the state
untouched. -/
theorem C2_failure_preserves_state_witness :
    (generateSummaryStep "https://youtu.be/abc" (Except.error "TranscriptUnavailable")
        (Except.ok "S") ⟨"old", true, [("q", "a")]⟩).1 = ⟨"old", true, [("q", "a")]⟩ ∧
    (generateSummaryStepO2 "" (Except.ok "t") (Except.ok "S") ⟨"", false, []⟩).1
      = ⟨"", false, []⟩ :=
  ⟨(C2_failure_preserves_state "https://youtu.be/abc" "" (Except.error "TranscriptUnavailable")
      (Except.ok "S") (Except.ok "t") (Except.ok "S") ⟨"old", true, [("q", "a")]⟩
      ⟨"", false, []⟩).1 (by decide),
   (C2_failure_preserves_state "https://youtu.be/abc" "" (Except.error "TranscriptUnavailable")
      (Except.ok "S") (Except.ok "t") (Except.ok "S") ⟨"old", true, [("q", "a")]⟩
      ⟨"", false, []⟩).2 (by decide)⟩

/-- C3 counterexample: when the LLM completion succeeds but returns the empty
string, the state reached from the initial state by one GenerateSummary action
has `qa_active = true` with an empty summary, so the claimed invariant fails
on a reachable state. -/
theorem C3_counterexample_empty_completion :
    (runActions [UserAction.generate "https://youtu.be/abc" (Except.ok "hello world")
        (Except.ok "")] initialState).qa_active = true ∧
    (runActions [UserAction.generate "https://youtu.be/abc" (Except.ok "hello world")
        (Except.ok "")] initialState).summary = "" :=
  ⟨rfl, rfl⟩

/-- Successful generate actions whose completion text is non-empty; the other
actions are unrestricted. -/
def generatedTextNonEmpty : UserAction → Prop
  | UserAction.generate _ _ (Except.ok text) => text ≠ ""
  | _ => True

/-- Invariant claimed for the session state. -/
def qaInvariant (s : SessionState) : Prop := s.qa_active = true → s.summary ≠ ""

lemma applyAction_preserves (a : UserAction) (s : SessionState)
    (hs : qaInvariant s) (ha : generatedTextNonEmpty a) : qaInvariant (applyAction a s) := by
  cases a with
  | generate url f l =>
    show qaInvariant (generateSummaryStep url f l s).1
    unfold generateSummaryStep
    split
    · exact hs
    · split
      · exact hs
      · split
        · exact hs
        · cases f with
          | error e => exact hs
          | ok t =>
            cases l with
            | error e => exact hs
            | ok text =>
              intro _
              exact ha
  | ask q l =>
    show qaInvariant (askQuestionStep q l s).1
    unfold askQuestionStep
    split
    · split
      · exact hs
      · cases l with
        | error e => exact hs
        | ok ans =>
          intro h
          exact hs h
    · exact hs
  | done =>
    show qaInvariant (endSessionStep s)
    unfold endSessionStep
    split
    · intro h
      exact absurd h Bool.false_ne_true
    · exact hs

lemma runActions_preserves (as : List UserAction) :
    ∀ s : SessionState, qaInvariant s → (∀ a ∈ as, generatedTextNonEmpty a) →
      qaInvariant (runActions as s) := by
  induction as with
  | nil =>
    intro s hs _
    exact hs
  | cons a t ih =>
    intro s hs hall
    exact ih (applyAction a s)
      (applyAction_preserves a s hs (hall a (List.mem_cons_self a t)))
      (fun b hb => hall b (List.mem_cons_of_mem a hb))

/-- C3 amended: in every state reachable from the initial session state by
actions whose successful summary completions return non-empty text,
`qa_active = true` implies the summary is non-empty.  (The unrestricted
statement fails: see the counterexample with an empty completion.) -/
theorem C3_qa_invariant_amended (as : List UserAction)
    (h : ∀ a ∈ as, generatedTextNonEmpty a) :
    qaInvariant (runActions as initialState) :=
  runActions_preserves as initialState (fun hq => absurd hq Bool.false_ne_true) h

/-- C3 witness: the amended invariant evaluated after one successful
generation with non-empty output. -/
theorem C3_qa_invariant_amended_witness :
    qaInvariant (runActions [UserAction.generate "https://youtu.be/abc"
      (Except.ok "hello world") (Except.ok "Summary text")] initialState) :=
  C3_qa_invariant_amended [UserAction.generate "https://youtu.be/abc"
      (Except.ok "hello world") (Except.ok "Summary text")]
    (by
      intro a ha
      rw [List.mem_singleton.mp ha]
      show ("Summary text" : String) ≠ ""
      decide)

/-- C4 counterexample: a reachable state with `qa_active = true` but an empty
summary (empty LLM completion) on which EndSession changes nothing — the Done
control only exists while the summary is non-empty — so `qa_active` is not set
to false for every state with `qa_active = true`. -/
theorem C4_counterexample_empty_summary :
    (runActions [UserAction.generate "https://youtu.be/abc" (Except.ok "transcript text")
        (Except.ok "")] initialState).qa_active = true ∧
    endSessionStep (runActions [UserAction.generate "https://youtu.be/abc"
        (Except.ok "transcript text") (Except.ok "")] initialState) =
      runActions [UserAction.generate "https://youtu.be/abc" (Except.ok "transcript text")
        (Except.ok "")] initialState ∧
    (endSessionStep (runActions [UserAction.generate "https://youtu.be/abc"
        (Except.ok "transcript text") (Except.ok "")] initialState)).qa_active = true :=
  ⟨rfl, by decide, rfl⟩

/-- C4 amended: for every state with `qa_active = true` and a non-empty
summary, EndSession deactivates Q&A, clears the history and keeps the summary;
and a successful GenerateSummary producing non-empty text followed immediately
by EndSession yields `qa_active = false`, empty history and the generated
summary. -/
theorem C4_end_session_amended :
    (∀ s : SessionState, s.qa_active = true → s.summary ≠ "" →
        endSessionStep s = ⟨s.summary, false, []⟩) ∧
    (∀ (s : SessionState) (url vid transcript text : String),
        isBlank url = false → extract_video_id url = some vid → vid ≠ "" → text ≠ "" →
        endSessionStep (generateSummaryStep url (Except.ok transcript) (Except.ok text) s).1 =
          ⟨text, false, []⟩) := by
  constructor
  · intro s h1 h2
    unfold endSessionStep
    rw [if_pos ⟨h1, h2⟩]
  · intro s url vid transcript text h1 h2 h3 htext
    rw [genStep_success s url vid transcript text h1 h2 h3]
    unfold endSessionStep
    exact if_pos ⟨rfl, htext⟩

/-- C4 witness: both parts of the amended statement at concrete inputs. -/
theorem C4_end_session_amended_witness :
    endSessionStep ⟨"Summary text", true, [("q", "a")]⟩ = ⟨"Summary text", false, []⟩ ∧
    endSessionStep (generateSummaryStep "https://youtu.be/abc123" (Except.ok "hello world")
        (Except.ok "Summary text") initialState).1 = ⟨"Summary text", false, []⟩ :=
  ⟨C4_end_session_amended.1 ⟨"Summary text", true, [("q", "a")]⟩ rfl (by decide),
   C4_end_session_amended.2 initialState "https://youtu.be/abc123" "abc123" "hello world"
     "Summary text" rfl (by decide) (by decide) (by decide)⟩

/-- C5: submitting a question while Q&A is not active, or submitting a blank
(empty or whitespace-only) question, changes nothing: the state is exactly the
pre-call state and the external LLM service is not invoked, so no history
entry is appended and no error is surfaced. -/
theorem C5_ask_question_noop (s : SessionState) (q : String) (llmRes : Except String String)
    (h : s.qa_active = false ∨ isBlank q = true) :
    (askQuestionStep q llmRes s).1 = s ∧
    qaUsedLLM (askQuestionStep q llmRes s).2 = false := by
  unfold askQuestionStep
  rcases h with h | h
  · rw [if_neg]
    · exact ⟨rfl, rfl⟩
    · intro hand
      rw [h] at hand
      exact Bool.false_ne_true hand.1
  · by_cases hg : s.qa_active = true ∧ s.summary ≠ ""
    · rw [if_pos hg, if_pos h]
      exact ⟨rfl, rfl⟩
    · rw [if_neg hg]
      exact ⟨rfl, rfl⟩

/-- C5 witness: an inactive session and a blank question in an active
session. -/
theorem C5_ask_question_noop_witness :
    ((askQuestionStep "What is it about?" (Except.ok "ans") ⟨"S", false, []⟩).1
        = ⟨"S", false, []⟩ ∧
      qaUsedLLM (askQuestionStep "What is it about?" (Except.ok "ans")
        ⟨"S", false, []⟩).2 = false) ∧
    ((askQuestionStep "   " (Except.ok "ans") ⟨"S", true, [("q", "a")]⟩).1
        = ⟨"S", true, [("q", "a")]⟩ ∧
      qaUsedLLM (askQuestionStep "   " (Except.ok "ans")
        ⟨"S", true, [("q", "a")]⟩).2 = false) :=
  ⟨C5_ask_question_noop ⟨"S", false, []⟩ "What is it about?" (Except.ok "ans") (Or.inl rfl),
   C5_ask_question_noop ⟨"S", true, [("q", "a")]⟩ "   " (Except.ok "ans")
     (Or.inr (by decide))⟩

/-- C7 counterexample: `summarizer.py`'s `fetch_transcript` (also cited by the
claim) propagates the underlying error text unchanged, with no classification
hint attached, so the claim does not hold of every fetch variant. -/
theorem C7_counterexample_unclassified :
    fetch_transcript (fun _ => Except.error "boom") "abc" = Except.error "boom" ∧
    "boom" ≠ transcriptErrorMessage "boom" :=
  ⟨rfl, by decide⟩

/-- C7 amended: in the `summarizero2.py` variant, whenever the external
transcript call fails, `fetch_transcript` raises the classified error whose
message is the human-readable hint (no captions, network/IP blocked,
cloud-hosting IP restriction) followed by the original error text. -/
theorem C7_transcript_classified_amended (env : String → Option String)
    (svc : String → ProxyConfig → Except String (List CaptionFragment)) (vid e : String)
    (h : svc vid ⟨env "HTTP_PROXY", env "HTTPS_PROXY"⟩ = Except.error e) :
    fetch_transcript_o2 env svc vid = Except.error (transcriptHintText ++ e) := by
  unfold fetch_transcript_o2
  rw [h]
  rfl

/-- C7 witness: a concrete failing service call is re-raised classified. -/
theorem C7_transcript_classified_amended_witness :
    fetch_transcript_o2 (fun _ => none) (fun _ _ => Except.error "no captions found") "abc"
      = Except.error (transcriptHintText ++ "no captions found") :=
  C7_transcript_classified_amended (fun _ => none)
    (fun _ _ => Except.error "no captions found") "abc" "no captions found" rfl

/-- C9: on any successful service reply, both fetch variants return exactly
the fragment texts joined with single spaces, in service order, with no other
normalization. -/
theorem C9_join_fragments (svc1 : String → Except String (List CaptionFragment))
    (env : String → Option String)
    (svc2 : String → ProxyConfig → Except String (List CaptionFragment))
    (vid1 vid2 : String) (frags1 frags2 : List CaptionFragment)
    (h1 : svc1 vid1 = Except.ok frags1)
    (h2 : svc2 vid2 ⟨env "HTTP_PROXY", env "HTTPS_PROXY"⟩ = Except.ok frags2) :
    fetch_transcript svc1 vid1
      = Except.ok (String.intercalate " " (frags1.map CaptionFragment.text)) ∧
    fetch_transcript_o2 env svc2 vid2
      = Except.ok (String.intercalate " " (frags2.map CaptionFragment.text)) := by
  constructor
  · unfold fetch_transcript
    rw [h1]
  · unfold fetch_transcript_o2
    rw [h2]

/-- C9 witness: two fragments join to a single-space-separated transcript in
both variants. -/
theorem C9_join_fragments_witness :
    fetch_transcript (fun _ => Except.ok [⟨"hello"⟩, ⟨"world"⟩]) "abc"
      = Except.ok "hello world" ∧
    fetch_transcript_o2 (fun _ => none) (fun _ _ => Except.ok [⟨"hello"⟩, ⟨"world"⟩]) "abc"
      = Except.ok "hello world" :=
  ⟨((C9_join_fragments (fun _ => Except.ok [⟨"hello"⟩, ⟨"world"⟩]) (fun _ => none)
      (fun _ _ => Except.ok [⟨"hello"⟩, ⟨"world"⟩]) "abc" "abc"
      [⟨"hello"⟩, ⟨"world"⟩] [⟨"hello"⟩, ⟨"world"⟩] rfl rfl).1).trans rfl,
   ((C9_join_fragments (fun _ => Except.ok [⟨"hello"⟩, ⟨"world"⟩]) (fun _ => none)
      (fun _ _ => Except.ok [⟨"hello"⟩, ⟨"world"⟩]) "abc" "abc"
      [⟨"hello"⟩, ⟨"world"⟩] [⟨"hello"⟩, ⟨"world"⟩] rfl rfl).2).trans rfl⟩

/-- C10: the three `extract_video_id` variants are extensionally equal — their
bodies are identical, so they agree on every input URL. -/
theorem C10_variants_agree (url : String) :
    extract_video_id url = extract_video_id_o2 url ∧
    extract_video_id url = extract_video_id_sum url :=
  ⟨rfl, rfl⟩
